import Mathlib

/-!
Shallow embedding of `scripts/summarization.py`: a PyTorch Lightning
fine-tuning script for a sequence-to-sequence summarization model.

Token ids are integers (`Int`, since the loss-ignore sentinel `-100` lives in
the same tensor as token ids); a 2-D token tensor is a list of rows.  External
framework calls (the pretrained model, `model.generate`, the tokenizer) are
parameters of the embedded functions; a Python exception is an `Except.error`.
-/

namespace Summarization

/-- One raw dataset entry: an article/abstract pair. -/
structure Entry where
  article : String
  abstract : String

/-- Modelled from the spec: the external HuggingFace tokenizer's
`encode(text, truncation=True, max_length=L)` (the tokenizer is library code,
not in this repository); per the spec it tokenizes one text field,
"truncating to configured maximum lengths", i.e. it keeps at most the first
`max_length` token ids of the untruncated encoding. -/
def encodeTrunc (encode : String → List Int) (max_length : Nat) (text : String) : List Int :=
  (encode text).take max_length

/-- `SummarizationDataset.__getitem__`: tokenize the article and the abstract
independently, truncating to `max_input_len` and `max_output_len`. -/
def SummarizationDataset.getItem (encode : String → List Int)
    (max_input_len max_output_len : Nat) (entry : Entry) : List Int × List Int :=
  (encodeTrunc encode max_input_len entry.article,
   encodeTrunc encode max_output_len entry.abstract)

/-- One row of `torch.nn.utils.rnn.pad_sequence`: right-pad a sequence with
`padVal` up to length `len`. -/
def padRow (padVal : Int) (len : Nat) (xs : List Int) : List Int :=
  xs ++ List.replicate (len - xs.length) padVal

/-- The longest sequence length in a batch (the common length
`pad_sequence` pads to). -/
def batchMaxLen (seqs : List (List Int)) : Nat :=
  (seqs.map List.length).foldr max 0

/-- `torch.nn.utils.rnn.pad_sequence(seqs, batch_first=True, padding_value=padVal)`:
every sequence is right-padded to the length of the longest one. -/
def padSequence (padVal : Int) (seqs : List (List Int)) : List (List Int) :=
  seqs.map (padRow padVal (batchMaxLen seqs))

/-- `SummarizationDataset.collate_fn`: unzip the batch of (input, output)
pairs and right-pad each side to a rectangular tensor with the hardcoded
`pad_token_id = 1`. -/
def SummarizationDataset.collate_fn (batch : List (List Int × List Int)) :
    List (List Int) × List (List Int) :=
  (padSequence 1 (batch.map Prod.fst), padSequence 1 (batch.map Prod.snd))

/-- A Python exception: either a `ZeroDivisionError` (the one failure the
script itself can produce, in `validation_step`'s metric averaging) or an
error raised by an underlying framework call. -/
inductive PyError where
  | zeroDivisionError
  | frameworkError (msg : String)
deriving Repr, DecidableEq

/-- The keyword arguments `Summarizer.forward` passes to the external model
`self.model(...)`. -/
structure ModelArgs where
  input_ids : List (List Int)
  attention_mask : List (List Int)
  decoder_input_ids : List (List Int)
  decoder_attention_mask : List (List Bool)
  labels : List (List Int)
deriving Repr, DecidableEq

/-- `attention_mask = torch.ones(input_ids.shape); attention_mask[input_ids == pad] = 0`:
1 everywhere except 0 at positions holding the tokenizer's `pad_token_id`. -/
def attentionMask (padId : Int) (input_ids : List (List Int)) : List (List Int) :=
  input_ids.map (fun row => row.map (fun t => if t = padId then 0 else 1))

/-- `decoder_input_ids = output_ids[:, :-1]`: each target row with its last
column dropped. -/
def decoderInputIds (output_ids : List (List Int)) : List (List Int) :=
  output_ids.map List.dropLast

/-- `decoder_attention_mask = (decoder_input_ids != pad_token_id)`. -/
def decoderAttentionMask (padId : Int) (output_ids : List (List Int)) : List (List Bool) :=
  (decoderInputIds output_ids).map (fun row => row.map (fun t => decide ¬t = padId))

/-- One row of the label tensor: `labels = output_ids[:, 1:].clone();
labels[labels == pad_token_id] = -100`. -/
def maskedLabelsRow (padId : Int) (row : List Int) : List Int :=
  (row.drop 1).map (fun t => if t = padId then -100 else t)

/-- The full label tensor built by `Summarizer.forward`. -/
def labelsOf (padId : Int) (output_ids : List (List Int)) : List (List Int) :=
  output_ids.map (maskedLabelsRow padId)

/-- The argument record `Summarizer.forward` assembles before invoking the
model. -/
def forwardArgs (padId : Int) (input_ids output_ids : List (List Int)) : ModelArgs :=
  { input_ids := input_ids
    attention_mask := attentionMask padId input_ids
    decoder_input_ids := decoderInputIds output_ids
    decoder_attention_mask := decoderAttentionMask padId output_ids
    labels := labelsOf padId output_ids }

/-- `Summarizer.forward`: build the masks, the shifted decoder inputs and the
masked labels, then call the external model (a parameter here); `outputs[0]`
is the model's scalar loss. -/
def Summarizer.forward (model : ModelArgs → Except PyError ℚ) (padId : Int)
    (input_ids output_ids : List (List Int)) : Except PyError ℚ :=
  model (forwardArgs padId input_ids output_ids)

/-- `tensor.numel()` of a 2-D token tensor. -/
def numel (t : List (List Int)) : Nat :=
  (t.map List.length).sum

/-- The `tensorboard_logs` scalars of `training_step` (the CUDA memory
gauge is an external reading, a parameter `mem`). -/
structure TrainLogs where
  train_loss : ℚ
  lr : ℚ
  input_size : Nat
  output_size : Nat
  mem : ℚ
deriving Repr, DecidableEq

/-- The dictionary `training_step` returns. -/
structure TrainStepOutput where
  loss : ℚ
  log : TrainLogs
deriving Repr, DecidableEq

/-- `Summarizer.training_step`: run `forward` on the batch, take `output[0]`
as the loss, and return it with the logging scalars; an exception from the
model propagates unchanged. -/
def Summarizer.training_step (model : ModelArgs → Except PyError ℚ) (padId : Int)
    (lr mem : ℚ) (batch : List (List Int) × List (List Int)) :
    Except PyError TrainStepOutput :=
  (Summarizer.forward model padId batch.1 batch.2).map (fun loss =>
    { loss := loss
      log := { train_loss := loss, lr := lr,
               input_size := numel batch.1, output_size := numel batch.2, mem := mem } })

/-- The three ROUGE f-measures `rouge_scorer` reports for one
(reference, prediction) pair. -/
structure RougeScore where
  rouge1 : ℚ
  rouge2 : ℚ
  rougeL : ℚ
deriving Repr, DecidableEq

/-- The dictionary `validation_step` returns. -/
structure ValStepOutput where
  vloss : ℚ
  rouge1 : ℚ
  rouge2 : ℚ
  rougeL : ℚ
deriving Repr, DecidableEq

/-- `Summarizer.validation_step`: run `forward` for the validation loss, let
the external model generate summaries, decode both tensors to text
(`batch_decode` maps the external per-row `decode` over the rows), score each
(reference, prediction) pair with the external `rouge_scorer`, sum the scores
and divide by `len(generated_str)` — a Python `ZeroDivisionError` when no
summary was generated. -/
def Summarizer.validation_step (model : ModelArgs → Except PyError ℚ)
    (generate : List (List Int) → List (List Int) → Except PyError (List (List Int)))
    (decode : List Int → String) (score : String → String → RougeScore)
    (padId : Int) (batch : List (List Int) × List (List Int)) :
    Except PyError ValStepOutput :=
  match Summarizer.forward model padId batch.1 batch.2 with
  | Except.error e => Except.error e
  | Except.ok vloss =>
    match generate batch.1 (attentionMask padId batch.1) with
    | Except.error e => Except.error e
    | Except.ok generated_ids =>
      let generated_str := generated_ids.map decode
      let gold_str := batch.2.map decode
      let pairs := gold_str.zip generated_str
      if generated_str.length = 0 then
        Except.error PyError.zeroDivisionError
      else
        Except.ok
          { vloss := vloss
            rouge1 := (pairs.map (fun p => (score p.1 p.2).rouge1)).sum / (generated_str.length : ℚ)
            rouge2 := (pairs.map (fun p => (score p.1 p.2).rouge2)).sum / (generated_str.length : ℚ)
            rougeL := (pairs.map (fun p => (score p.1 p.2).rougeL)).sum / (generated_str.length : ℚ) }

/-- `torch.stack(xs).mean()` for a list of scalar metric tensors. -/
def stackMean (xs : List ℚ) : ℚ :=
  xs.sum / (xs.length : ℚ)

/-- One metric of `validation_epoch_end`: the mean of the per-batch values of
this worker; under DDP the local means of all workers are summed by
`all_reduce(SUM)` and divided by `world_size` (`otherWorkers` holds the
per-batch outputs of the other workers, so `world_size` is
`otherWorkers.length + 1`). -/
def reducedMetric (useDdp : Bool) (otherWorkers : List (List ValStepOutput))
    (outputs : List ValStepOutput) (get : ValStepOutput → ℚ) : ℚ :=
  let metric := stackMean (outputs.map get)
  if useDdp then
    (metric + (otherWorkers.map (fun o => stackMean (o.map get))).sum)
      / ((otherWorkers.length + 1 : Nat) : ℚ)
  else metric

/-- The `logs` dictionary of `validation_epoch_end`. -/
structure EpochLogs where
  vloss : ℚ
  rouge1 : ℚ
  rouge2 : ℚ
  rougeL : ℚ
deriving Repr, DecidableEq

/-- The dictionary `validation_epoch_end` returns. -/
structure EpochResult where
  avg_val_loss : ℚ
  log : EpochLogs
deriving Repr, DecidableEq

/-- `Summarizer.validation_epoch_end`: reduce each of the four metrics over
the epoch (and over the workers under DDP) and report the reduced `vloss` as
`avg_val_loss`. -/
def Summarizer.validation_epoch_end (useDdp : Bool)
    (otherWorkers : List (List ValStepOutput)) (outputs : List ValStepOutput) :
    EpochResult :=
  let logs : EpochLogs :=
    { vloss := reducedMetric useDdp otherWorkers outputs ValStepOutput.vloss
      rouge1 := reducedMetric useDdp otherWorkers outputs ValStepOutput.rouge1
      rouge2 := reducedMetric useDdp otherWorkers outputs ValStepOutput.rouge2
      rougeL := reducedMetric useDdp otherWorkers outputs ValStepOutput.rougeL }
  { avg_val_loss := logs.vloss, log := logs }

/-- The arguments `main` passes to the external `ModelCheckpoint` callback
(its `prefix` argument, the empty string, is omitted: the name is reserved
in Lean). -/
structure ModelCheckpointConfig where
  filepath : String
  save_top_k : Nat
  verbose : Bool
  monitor : String
  mode : String
  period : Int
deriving Repr, DecidableEq

/-- The `ModelCheckpoint` constructed in `main`. -/
def mainCheckpointCallback (save_dir save_pre : String) : ModelCheckpointConfig :=
  { filepath := save_dir ++ "/" ++ save_pre ++ "/" ++ "checkpoints"
    save_top_k := 5
    verbose := true
    monitor := "avg_val_loss"
    mode := "min"
    period := -1 }

/-- Modelled from the spec: the external `ModelCheckpoint` keeps checkpoint
files "keyed by validation-loss ranking (top 5 kept)": with `mode='min'` the
`save_top_k` smallest monitored `avg_val_loss` values are the ones whose
checkpoints are kept. -/
def keptCheckpoints (save_top_k : Nat) (monitored : List ℚ) : List ℚ :=
  (monitored.mergeSort).take save_top_k

/-- Modelled from the spec: the contribution of one label position to the
external model's loss. The spec says the training step "masks padding
positions from the loss" through the loss-ignore sentinel: a position
holding -100 contributes nothing, any other position contributes its
per-token loss `perTok` (the cross-entropy term, external to this
repository). -/
def tokenTerm (perTok : Nat → Nat → Int → ℚ) (i j : Nat) (t : Int) : ℚ :=
  if t = -100 then 0 else perTok i j t

/-- Modelled from the spec: the external model's scalar loss over a label
tensor, the sum of the per-position contributions. -/
def modelLoss (perTok : Nat → Nat → Int → ℚ) (labels : List (List Int)) : ℚ :=
  (labels.enum.map (fun ir =>
    (ir.2.enum.map (fun jt => tokenTerm perTok ir.1 jt.1 jt.2)).sum)).sum

/-- The reference loss for the padding claim: computed over the raw shifted
targets `output_ids[:, 1:]`, with every position holding the padding
sentinel skipped outright (contributing 0). -/
def lossSkippingPad (perTok : Nat → Nat → Int → ℚ) (padId : Int)
    (output_ids : List (List Int)) : ℚ :=
  (output_ids.enum.map (fun ir =>
    ((ir.2.drop 1).enum.map (fun jt =>
      if jt.2 = padId then 0 else tokenTerm perTok ir.1 jt.1 jt.2)).sum)).sum

/-- The input-side exclusion property: every padding position the collator
added to an input row (an index at or beyond the original sequence's
length) receives attention 0 from `forward`'s attention mask. -/
def inputPadMasked (padId : Int) (batch : List (List Int × List Int)) : Prop :=
  ∀ i j, i < batch.length →
    (batch.getD i ([], [])).1.length ≤ j →
    j < ((SummarizationDataset.collate_fn batch).1.getD i []).length →
    ((attentionMask padId (SummarizationDataset.collate_fn batch).1).getD i []).getD j 1 = 0

/-- The target-side exclusion property: every label position deriving from a
padding position the collator added to a target row (after the shift by one,
an index at or beyond the original length minus one) is set to the
loss-ignore sentinel -100. -/
def targetPadMaskedInLabels (padId : Int) (batch : List (List Int × List Int)) : Prop :=
  ∀ i j, i < batch.length →
    (batch.getD i ([], [])).2.length - 1 ≤ j →
    j < ((labelsOf padId (SummarizationDataset.collate_fn batch).2).getD i []).length →
    ((labelsOf padId (SummarizationDataset.collate_fn batch).2).getD i []).getD j 0 = -100

/-- A small concrete batch of two (input, output) token-sequence pairs, used
to evaluate the embedded functions at a concrete input. -/
def sampleBatch : List (List Int × List Int) :=
  [([2], [3, 4, 5]), ([6, 7], [8])]

/-- A concrete stand-in for the external model call: loss 0 on every input. -/
def wModel : ModelArgs → Except PyError ℚ :=
  fun _ => Except.ok 0

/-- A concrete generated tensor: one summary per row of `sampleBatch`. -/
def wGenerated : List (List Int) :=
  [[2], [3]]

/-- A concrete stand-in for the external generation call. -/
def wGen : List (List Int) → List (List Int) → Except PyError (List (List Int)) :=
  fun _ _ => Except.ok wGenerated

/-- A concrete stand-in for the external tokenizer's per-row decoding. -/
def wDecode : List Int → String :=
  fun _ => "t"

/-- A concrete stand-in for the external ROUGE scorer. -/
def wScore : String → String → RougeScore :=
  fun _ _ => { rouge1 := 1, rouge2 := 2, rougeL := 3 }

/-! Helper lemmas about padding. -/

theorem length_le_batchMaxLen {l : List (List Int)} {x : List Int} (h : x ∈ l) :
    x.length ≤ batchMaxLen l := by
  induction l with
  | nil => cases h
  | cons a t ih =>
    rcases List.mem_cons.mp h with rfl | h
    · exact le_max_left _ _
    · exact le_trans (ih h) (le_max_right _ _)

theorem batchMaxLen_le {l : List (List Int)} {B : Nat} (h : ∀ x ∈ l, x.length ≤ B) :
    batchMaxLen l ≤ B := by
  induction l with
  | nil => exact Nat.zero_le B
  | cons a t ih =>
    exact max_le (h a (List.mem_cons_self a t)) (ih fun x hx => h x (List.mem_cons_of_mem a hx))

theorem padRow_length (v : Int) (m : Nat) (xs : List Int) :
    (padRow v m xs).length = max xs.length m := by
  unfold padRow
  rw [List.length_append, List.length_replicate]
  rcases Nat.le_total xs.length m with h | h
  · rw [max_eq_right h]; omega
  · rw [max_eq_left h]; omega

theorem padRow_getElem_of_ge {v : Int} {m : Nat} {xs : List Int} {j : Nat}
    (h1 : xs.length ≤ j) (h2 : j < (padRow v m xs).length) :
    (padRow v m xs)[j] = v := by
  unfold padRow at h2 ⊢
  rw [List.getElem_append_right h1]
  exact List.getElem_replicate ..

theorem zip_map_self {α β : Type _} (l : List α) (g : α → β) :
    l.zip (l.map g) = l.map (fun a => (a, g a)) := by
  induction l with
  | nil => rfl
  | cons a t ih => simp [ih]

theorem collate_fn_rows (batch : List (List Int × List Int)) :
    (SummarizationDataset.collate_fn batch).1 =
      batch.map (fun p => padRow 1 (batchMaxLen (batch.map Prod.fst)) p.1) ∧
    (SummarizationDataset.collate_fn batch).2 =
      batch.map (fun p => padRow 1 (batchMaxLen (batch.map Prod.snd)) p.2) := by
  constructor <;>
    simp [SummarizationDataset.collate_fn, padSequence, List.map_map, Function.comp]

/-- C2: for every non-empty batch, `collate_fn` returns two tensors with one
row per batch element in batch order; each row is the original sequence
followed by copies of the pad value 1, and every row of a side has that
side's batch-maximum length (the tensors are rectangular). -/
theorem collate_fn_rectangular (batch : List (List Int × List Int)) (hne : batch ≠ []) :
    ((SummarizationDataset.collate_fn batch).1.length = batch.length ∧
     (SummarizationDataset.collate_fn batch).2.length = batch.length) ∧
    (∀ p ∈ batch.zip (SummarizationDataset.collate_fn batch).1,
       p.2 = p.1.1 ++ List.replicate (batchMaxLen (batch.map Prod.fst) - p.1.1.length) 1 ∧
       p.2.length = batchMaxLen (batch.map Prod.fst)) ∧
    (∀ p ∈ batch.zip (SummarizationDataset.collate_fn batch).2,
       p.2 = p.1.2 ++ List.replicate (batchMaxLen (batch.map Prod.snd) - p.1.2.length) 1 ∧
       p.2.length = batchMaxLen (batch.map Prod.snd)) := by
  obtain ⟨h1, h2⟩ := collate_fn_rows batch
  refine ⟨⟨by rw [h1]; simp, by rw [h2]; simp⟩, ?_, ?_⟩
  · rw [h1, zip_map_self]
    intro p hp
    obtain ⟨a, ha, rfl⟩ := List.mem_map.mp hp
    refine ⟨rfl, ?_⟩
    rw [padRow_length]
    exact max_eq_right (length_le_batchMaxLen (List.mem_map_of_mem Prod.fst ha))
  · rw [h2, zip_map_self]
    intro p hp
    obtain ⟨a, ha, rfl⟩ := List.mem_map.mp hp
    refine ⟨rfl, ?_⟩
    rw [padRow_length]
    exact max_eq_right (length_le_batchMaxLen (List.mem_map_of_mem Prod.snd ha))

/-- C2 witness: the theorem applied to a concrete two-element batch. -/
theorem collate_fn_rectangular_witness :
    ((SummarizationDataset.collate_fn sampleBatch).1.length = sampleBatch.length ∧
     (SummarizationDataset.collate_fn sampleBatch).2.length = sampleBatch.length) ∧
    (∀ p ∈ sampleBatch.zip (SummarizationDataset.collate_fn sampleBatch).1,
       p.2 = p.1.1 ++ List.replicate
         (batchMaxLen (sampleBatch.map Prod.fst) - p.1.1.length) 1 ∧
       p.2.length = batchMaxLen (sampleBatch.map Prod.fst)) ∧
    (∀ p ∈ sampleBatch.zip (SummarizationDataset.collate_fn sampleBatch).2,
       p.2 = p.1.2 ++ List.replicate
         (batchMaxLen (sampleBatch.map Prod.snd) - p.1.2.length) 1 ∧
       p.2.length = batchMaxLen (sampleBatch.map Prod.snd)) :=
  collate_fn_rectangular sampleBatch (by decide)

/-- C4: `__getitem__` tokenizes with truncation, so its input sequence has
length at most `max_input_len` and its output sequence length at most
`max_output_len`; and the bounds survive the later operations on the
sequences: the rows the collator produces from a batch of bounded
sequences stay bounded, as do the shifted decoder inputs and labels that
`forward` derives from them. -/
theorem getItem_length_bounded (encode : String → List Int)
    (max_input_len max_output_len : Nat) (entry : Entry) (padId : Int)
    (batch : List (List Int × List Int))
    (hb : ∀ p ∈ batch, p.1.length ≤ max_input_len ∧ p.2.length ≤ max_output_len) :
    ((SummarizationDataset.getItem encode max_input_len max_output_len entry).1.length ≤
        max_input_len ∧
     (SummarizationDataset.getItem encode max_input_len max_output_len entry).2.length ≤
        max_output_len) ∧
    (∀ row ∈ (SummarizationDataset.collate_fn batch).1, row.length ≤ max_input_len) ∧
    (∀ row ∈ (SummarizationDataset.collate_fn batch).2, row.length ≤ max_output_len) ∧
    (∀ row ∈ decoderInputIds (SummarizationDataset.collate_fn batch).2,
        row.length ≤ max_output_len) ∧
    (∀ row ∈ labelsOf padId (SummarizationDataset.collate_fn batch).2,
        row.length ≤ max_output_len) := by
  obtain ⟨h1, h2⟩ := collate_fn_rows batch
  have hmax1 : batchMaxLen (batch.map Prod.fst) ≤ max_input_len := by
    apply batchMaxLen_le
    intro x hx
    obtain ⟨p, hp, rfl⟩ := List.mem_map.mp hx
    exact (hb p hp).1
  have hmax2 : batchMaxLen (batch.map Prod.snd) ≤ max_output_len := by
    apply batchMaxLen_le
    intro x hx
    obtain ⟨p, hp, rfl⟩ := List.mem_map.mp hx
    exact (hb p hp).2
  have hrows2 : ∀ row ∈ (SummarizationDataset.collate_fn batch).2,
      row.length ≤ max_output_len := by
    rw [h2]
    intro row hrow
    obtain ⟨p, hp, rfl⟩ := List.mem_map.mp hrow
    rw [padRow_length]
    exact max_le (hb p hp).2 hmax2
  refine ⟨⟨?_, ?_⟩, ?_, hrows2, ?_, ?_⟩
  · exact List.length_take_le _ _
  · exact List.length_take_le _ _
  · rw [h1]
    intro row hrow
    obtain ⟨p, hp, rfl⟩ := List.mem_map.mp hrow
    rw [padRow_length]
    exact max_le (hb p hp).1 hmax1
  · intro row hrow
    obtain ⟨r, hr, rfl⟩ := List.mem_map.mp hrow
    calc r.dropLast.length = r.length - 1 := List.length_dropLast r
      _ ≤ r.length := Nat.sub_le _ _
      _ ≤ max_output_len := hrows2 r hr
  · intro row hrow
    obtain ⟨r, hr, rfl⟩ := List.mem_map.mp hrow
    simp only [maskedLabelsRow, List.length_map, List.length_drop]
    exact le_trans (Nat.sub_le _ _) (hrows2 r hr)

/-- C4 witness: the theorem applied to a concrete tokenizer, entry and batch. -/
theorem getItem_length_bounded_witness :
    ((SummarizationDataset.getItem (fun _ => [9, 9, 9, 9]) 2 3
        { article := "a", abstract := "b" }).1.length ≤ 2 ∧
     (SummarizationDataset.getItem (fun _ => [9, 9, 9, 9]) 2 3
        { article := "a", abstract := "b" }).2.length ≤ 3) ∧
    (∀ row ∈ (SummarizationDataset.collate_fn sampleBatch).1, row.length ≤ 2) ∧
    (∀ row ∈ (SummarizationDataset.collate_fn sampleBatch).2, row.length ≤ 3) ∧
    (∀ row ∈ decoderInputIds (SummarizationDataset.collate_fn sampleBatch).2,
        row.length ≤ 3) ∧
    (∀ row ∈ labelsOf 1 (SummarizationDataset.collate_fn sampleBatch).2, row.length ≤ 3) :=
  getItem_length_bounded (fun _ => [9, 9, 9, 9]) 2 3 { article := "a", abstract := "b" } 1
    sampleBatch (by decide)

/-- C3: the training step builds its decoder inputs by dropping the last
column of the target tensor and its labels by dropping the first column
(then masking pad positions to -100), and returns the model's scalar loss
together with the logging scalars. -/
theorem training_step_teacher_forcing (model : ModelArgs → Except PyError ℚ)
    (padId : Int) (lr mem : ℚ) (batch : List (List Int) × List (List Int)) (loss : ℚ)
    (hm : model (forwardArgs padId batch.1 batch.2) = Except.ok loss) :
    (forwardArgs padId batch.1 batch.2).decoder_input_ids =
      batch.2.map (fun row => row.take (row.length - 1)) ∧
    (forwardArgs padId batch.1 batch.2).labels =
      batch.2.map (fun row => (row.drop 1).map (fun t => if t = padId then -100 else t)) ∧
    Summarizer.training_step model padId lr mem batch =
      Except.ok { loss := loss
                  log := { train_loss := loss, lr := lr, input_size := numel batch.1,
                           output_size := numel batch.2, mem := mem } } := by
  refine ⟨?_, rfl, ?_⟩
  · exact List.map_congr_left fun r _ => List.dropLast_eq_take r
  · simp [Summarizer.training_step, Summarizer.forward, hm, Except.map]

/-- C3 witness: the theorem applied to the collated sample batch and a model
returning loss 3. -/
theorem training_step_teacher_forcing_witness :
    (forwardArgs 1 (SummarizationDataset.collate_fn sampleBatch).1
        (SummarizationDataset.collate_fn sampleBatch).2).decoder_input_ids =
      (SummarizationDataset.collate_fn sampleBatch).2.map
        (fun row => row.take (row.length - 1)) ∧
    (forwardArgs 1 (SummarizationDataset.collate_fn sampleBatch).1
        (SummarizationDataset.collate_fn sampleBatch).2).labels =
      (SummarizationDataset.collate_fn sampleBatch).2.map
        (fun row => (row.drop 1).map (fun t => if t = 1 then -100 else t)) ∧
    Summarizer.training_step (fun _ => Except.ok 3) 1 (3 / 100000) 2
        (SummarizationDataset.collate_fn sampleBatch) =
      Except.ok { loss := 3
                  log := { train_loss := 3, lr := 3 / 100000,
                           input_size := numel (SummarizationDataset.collate_fn sampleBatch).1,
                           output_size := numel (SummarizationDataset.collate_fn sampleBatch).2,
                           mem := 2 } } :=
  training_step_teacher_forcing (fun _ => Except.ok 3) 1 (3 / 100000) 2
    (SummarizationDataset.collate_fn sampleBatch) 3 rfl

/-- Elements of the sorted first part of a sorted list are bounded by the
elements of the remaining part. -/
theorem sorted_take_le_drop {l : List ℚ} (k : Nat) (hs : List.Sorted (· ≤ ·) l) :
    ∀ x ∈ l.take k, ∀ y ∈ l.drop k, x ≤ y := by
  have h : List.Pairwise (· ≤ ·) (l.take k ++ l.drop k) := by
    rw [List.take_append_drop]; exact hs
  exact (List.pairwise_append.mp h).2.2

/-- C9: `main` configures the `ModelCheckpoint` callback to monitor the
reported `avg_val_loss` with `mode='min'` and `save_top_k=5`;
`validation_epoch_end` reports the reduced validation loss under that key,
and the modelled keep-set holds at most 5 checkpoints, each ranked no worse
(no larger monitored loss) than every discarded one. -/
theorem checkpointing_top5_min_val_loss (save_dir save_pre : String)
    (monitored : List ℚ) (useDdp : Bool) (otherWorkers : List (List ValStepOutput))
    (outputs : List ValStepOutput) :
    (mainCheckpointCallback save_dir save_pre).monitor = "avg_val_loss" ∧
    (mainCheckpointCallback save_dir save_pre).mode = "min" ∧
    (mainCheckpointCallback save_dir save_pre).save_top_k = 5 ∧
    (Summarizer.validation_epoch_end useDdp otherWorkers outputs).avg_val_loss =
      reducedMetric useDdp otherWorkers outputs ValStepOutput.vloss ∧
    (keptCheckpoints (mainCheckpointCallback save_dir save_pre).save_top_k monitored).length ≤ 5 ∧
    ∀ x ∈ keptCheckpoints (mainCheckpointCallback save_dir save_pre).save_top_k monitored,
      ∀ y ∈ monitored.mergeSort.drop 5, x ≤ y := by
  refine ⟨rfl, rfl, rfl, rfl, ?_, ?_⟩
  · exact List.length_take_le _ _
  · exact sorted_take_le_drop 5 (List.sorted_mergeSort' monitored)

/-- C10: no step of the script catches or retries: when the external model
call raises, `forward`, `training_step` and `validation_step` all end with
that same error; when the model call succeeds but generation raises,
`validation_step` ends with that same error. -/
theorem framework_errors_propagate (model : ModelArgs → Except PyError ℚ)
    (generate : List (List Int) → List (List Int) → Except PyError (List (List Int)))
    (decode : List Int → String) (score : String → String → RougeScore)
    (padId : Int) (lr mem : ℚ) (batch : List (List Int) × List (List Int))
    (e : PyError) (vloss : ℚ) :
    (model (forwardArgs padId batch.1 batch.2) = Except.error e →
      Summarizer.forward model padId batch.1 batch.2 = Except.error e ∧
      Summarizer.training_step model padId lr mem batch = Except.error e ∧
      Summarizer.validation_step model generate decode score padId batch = Except.error e) ∧
    (model (forwardArgs padId batch.1 batch.2) = Except.ok vloss →
      generate batch.1 (attentionMask padId batch.1) = Except.error e →
      Summarizer.validation_step model generate decode score padId batch = Except.error e) := by
  constructor
  · intro hm
    refine ⟨hm, ?_, ?_⟩
    · simp [Summarizer.training_step, Summarizer.forward, hm, Except.map]
    · simp [Summarizer.validation_step, Summarizer.forward, hm, Except.bind]
  · intro hm hg
    simp [Summarizer.validation_step, Summarizer.forward, hm, hg, Except.bind]

/-- C1: every position of the shifted label tensor whose token equals the
padding sentinel is replaced by the loss-ignore sentinel -100 before the
model is invoked, and consequently the model's loss over the masked labels
equals the loss in which every padding position of the shifted targets is
skipped outright — no padding position is counted. -/
theorem padding_never_contributes_to_loss (padId : Int)
    (perTok : Nat → Nat → Int → ℚ) (output_ids : List (List Int))
    (row : List Int) (j : Nat) (hrow : row ∈ output_ids)
    (hj : (row.drop 1)[j]? = some padId) :
    (maskedLabelsRow padId row)[j]? = some (-100) ∧
    modelLoss perTok (labelsOf padId output_ids) =
      lossSkippingPad perTok padId output_ids := by
  constructor
  · unfold maskedLabelsRow
    rw [List.getElem?_map, hj]
    simp
  · unfold modelLoss lossSkippingPad labelsOf
    rw [List.enum_map, List.map_map]
    apply congrArg List.sum
    apply List.map_congr_left
    intro ir _
    obtain ⟨i, r⟩ := ir
    simp only [Function.comp, Prod.map, id]
    unfold maskedLabelsRow
    rw [List.enum_map, List.map_map]
    apply congrArg List.sum
    apply List.map_congr_left
    intro jt _
    obtain ⟨j', t⟩ := jt
    simp only [Function.comp, Prod.map, id]
    by_cases ht : t = padId <;> simp [tokenTerm, ht]

/-- C1 witness: the theorem applied to a concrete target tensor whose second
row holds a padding position in its shifted part. -/
theorem padding_never_contributes_to_loss_witness :
    (maskedLabelsRow 1 ([3, 4, 1] : List Int))[1]? = some (-100) ∧
    modelLoss (fun _ _ _ => 1) (labelsOf 1 [[3, 4, 1], [5, 1, 1]]) =
      lossSkippingPad (fun _ _ _ => 1) 1 [[3, 4, 1], [5, 1, 1]] :=
  padding_never_contributes_to_loss 1 (fun _ _ _ => 1) [[3, 4, 1], [5, 1, 1]]
    [3, 4, 1] 1 (by decide) (by decide)

/-- C5: `validation_epoch_end` reports, for each of the four metrics, the
arithmetic mean of the per-batch values of the epoch; under DDP that local
mean is summed with the other workers' means and divided by the worker
count before being reported. -/
theorem validation_epoch_end_reports_means (useDdp : Bool)
    (otherWorkers : List (List ValStepOutput)) (outputs : List ValStepOutput)
    (get : ValStepOutput → ℚ) (hne : outputs ≠ [])
    (hget : get = ValStepOutput.vloss ∨ get = ValStepOutput.rouge1 ∨
            get = ValStepOutput.rouge2 ∨ get = ValStepOutput.rougeL) :
    ((Summarizer.validation_epoch_end useDdp otherWorkers outputs).log.vloss =
        reducedMetric useDdp otherWorkers outputs ValStepOutput.vloss ∧
     (Summarizer.validation_epoch_end useDdp otherWorkers outputs).log.rouge1 =
        reducedMetric useDdp otherWorkers outputs ValStepOutput.rouge1 ∧
     (Summarizer.validation_epoch_end useDdp otherWorkers outputs).log.rouge2 =
        reducedMetric useDdp otherWorkers outputs ValStepOutput.rouge2 ∧
     (Summarizer.validation_epoch_end useDdp otherWorkers outputs).log.rougeL =
        reducedMetric useDdp otherWorkers outputs ValStepOutput.rougeL) ∧
    (useDdp = false →
      reducedMetric useDdp otherWorkers outputs get =
        (outputs.map get).sum / (outputs.length : ℚ)) ∧
    (useDdp = true →
      reducedMetric useDdp otherWorkers outputs get =
        ((outputs.map get).sum / (outputs.length : ℚ) +
            (otherWorkers.map (fun o => (o.map get).sum / (o.length : ℚ))).sum) /
          ((otherWorkers.length + 1 : Nat) : ℚ)) := by
  refine ⟨⟨rfl, rfl, rfl, rfl⟩, ?_, ?_⟩
  · intro h; subst h; simp [reducedMetric, stackMean]
  · intro h; subst h; simp [reducedMetric, stackMean]

/-- C5 witness: the theorem applied to a one-batch epoch under DDP with one
other worker. -/
theorem validation_epoch_end_reports_means_witness :
    ((Summarizer.validation_epoch_end true [[{ vloss := 5, rouge1 := 6, rouge2 := 7, rougeL := 8 }]]
        [{ vloss := 1, rouge1 := 2, rouge2 := 3, rougeL := 4 }]).log.vloss =
        reducedMetric true [[{ vloss := 5, rouge1 := 6, rouge2 := 7, rougeL := 8 }]]
          [{ vloss := 1, rouge1 := 2, rouge2 := 3, rougeL := 4 }] ValStepOutput.vloss ∧
     (Summarizer.validation_epoch_end true [[{ vloss := 5, rouge1 := 6, rouge2 := 7, rougeL := 8 }]]
        [{ vloss := 1, rouge1 := 2, rouge2 := 3, rougeL := 4 }]).log.rouge1 =
        reducedMetric true [[{ vloss := 5, rouge1 := 6, rouge2 := 7, rougeL := 8 }]]
          [{ vloss := 1, rouge1 := 2, rouge2 := 3, rougeL := 4 }] ValStepOutput.rouge1 ∧
     (Summarizer.validation_epoch_end true [[{ vloss := 5, rouge1 := 6, rouge2 := 7, rougeL := 8 }]]
        [{ vloss := 1, rouge1 := 2, rouge2 := 3, rougeL := 4 }]).log.rouge2 =
        reducedMetric true [[{ vloss := 5, rouge1 := 6, rouge2 := 7, rougeL := 8 }]]
          [{ vloss := 1, rouge1 := 2, rouge2 := 3, rougeL := 4 }] ValStepOutput.rouge2 ∧
     (Summarizer.validation_epoch_end true [[{ vloss := 5, rouge1 := 6, rouge2 := 7, rougeL := 8 }]]
        [{ vloss := 1, rouge1 := 2, rouge2 := 3, rougeL := 4 }]).log.rougeL =
        reducedMetric true [[{ vloss := 5, rouge1 := 6, rouge2 := 7, rougeL := 8 }]]
          [{ vloss := 1, rouge1 := 2, rouge2 := 3, rougeL := 4 }] ValStepOutput.rougeL) ∧
    (true = false →
      reducedMetric true [[{ vloss := 5, rouge1 := 6, rouge2 := 7, rougeL := 8 }]]
          [{ vloss := 1, rouge1 := 2, rouge2 := 3, rougeL := 4 }] ValStepOutput.vloss =
        ([{ vloss := 1, rouge1 := 2, rouge2 := 3, rougeL := 4 }].map ValStepOutput.vloss).sum /
          (([{ vloss := 1, rouge1 := 2, rouge2 := 3, rougeL := 4 }] :
              List ValStepOutput).length : ℚ)) ∧
    (true = true →
      reducedMetric true [[{ vloss := 5, rouge1 := 6, rouge2 := 7, rougeL := 8 }]]
          [{ vloss := 1, rouge1 := 2, rouge2 := 3, rougeL := 4 }] ValStepOutput.vloss =
        (([{ vloss := 1, rouge1 := 2, rouge2 := 3, rougeL := 4 }].map ValStepOutput.vloss).sum /
              (([{ vloss := 1, rouge1 := 2, rouge2 := 3, rougeL := 4 }] :
                  List ValStepOutput).length : ℚ) +
            ([[{ vloss := 5, rouge1 := 6, rouge2 := 7, rougeL := 8 }]].map
              (fun o => (o.map ValStepOutput.vloss).sum / (o.length : ℚ))).sum) /
          ((([[{ vloss := 5, rouge1 := 6, rouge2 := 7, rougeL := 8 }]] :
              List (List ValStepOutput)).length + 1 : Nat) : ℚ)) :=
  validation_epoch_end_reports_means true
    [[{ vloss := 5, rouge1 := 6, rouge2 := 7, rougeL := 8 }]]
    [{ vloss := 1, rouge1 := 2, rouge2 := 3, rougeL := 4 }]
    ValStepOutput.vloss (by decide) (Or.inl rfl)

/-- The mean of a list of identical values is that value. -/
theorem sum_div_card_of_constant {l : List ℚ} {s : ℚ} {n : Nat} (hn : l.length = n)
    (hnz : n ≠ 0) (h : ∀ x ∈ l, x = s) : l.sum / (n : ℚ) = s := by
  subst hn
  rw [List.sum_eq_card_nsmul l s h, nsmul_eq_mul]
  exact mul_div_cancel_left₀ s (Nat.cast_ne_zero.mpr hnz)

/-- C6: given successful model and generation calls producing one summary
per target row, the per-batch validation score of each ROUGE metric is the
arithmetic mean of the per-example scores, and when the per-example scores
of a metric are all equal the batch average equals that single-example
score. -/
theorem validation_rouge_is_batch_mean (model : ModelArgs → Except PyError ℚ)
    (generate : List (List Int) → List (List Int) → Except PyError (List (List Int)))
    (decode : List Int → String) (score : String → String → RougeScore)
    (padId : Int) (batch : List (List Int) × List (List Int)) (vloss : ℚ)
    (gen : List (List Int))
    (hm : model (forwardArgs padId batch.1 batch.2) = Except.ok vloss)
    (hg : generate batch.1 (attentionMask padId batch.1) = Except.ok gen)
    (hlen : gen.length = batch.2.length) (hne : gen ≠ []) :
    Summarizer.validation_step model generate decode score padId batch =
      Except.ok
        { vloss := vloss
          rouge1 := (((batch.2.map decode).zip (gen.map decode)).map
              (fun p => (score p.1 p.2).rouge1)).sum / (gen.length : ℚ)
          rouge2 := (((batch.2.map decode).zip (gen.map decode)).map
              (fun p => (score p.1 p.2).rouge2)).sum / (gen.length : ℚ)
          rougeL := (((batch.2.map decode).zip (gen.map decode)).map
              (fun p => (score p.1 p.2).rougeL)).sum / (gen.length : ℚ) } ∧
    (∀ s : ℚ, (∀ p ∈ (batch.2.map decode).zip (gen.map decode),
          (score p.1 p.2).rouge1 = s) →
        (((batch.2.map decode).zip (gen.map decode)).map
            (fun p => (score p.1 p.2).rouge1)).sum / (gen.length : ℚ) = s) ∧
    (∀ s : ℚ, (∀ p ∈ (batch.2.map decode).zip (gen.map decode),
          (score p.1 p.2).rouge2 = s) →
        (((batch.2.map decode).zip (gen.map decode)).map
            (fun p => (score p.1 p.2).rouge2)).sum / (gen.length : ℚ) = s) ∧
    (∀ s : ℚ, (∀ p ∈ (batch.2.map decode).zip (gen.map decode),
          (score p.1 p.2).rougeL = s) →
        (((batch.2.map decode).zip (gen.map decode)).map
            (fun p => (score p.1 p.2).rougeL)).sum / (gen.length : ℚ) = s) := by
  have hlz : ¬((gen.map decode).length = 0) := by
    simpa [List.length_eq_zero] using hne
  have hplen : ∀ f : String × String → ℚ,
      (((batch.2.map decode).zip (gen.map decode)).map f).length = gen.length := by
    intro f
    rw [List.length_map, List.length_zip, List.length_map, List.length_map, hlen, min_self]
  have hgz : gen.length ≠ 0 := by simpa [List.length_eq_zero] using hne
  refine ⟨?_, ?_, ?_, ?_⟩
  · simp [Summarizer.validation_step, Summarizer.forward, hm, hg, hlz, hne]
  · intro s hs
    refine sum_div_card_of_constant (hplen _) hgz ?_
    intro x hx
    obtain ⟨p, hp, rfl⟩ := List.mem_map.mp hx
    exact hs p hp
  · intro s hs
    refine sum_div_card_of_constant (hplen _) hgz ?_
    intro x hx
    obtain ⟨p, hp, rfl⟩ := List.mem_map.mp hx
    exact hs p hp
  · intro s hs
    refine sum_div_card_of_constant (hplen _) hgz ?_
    intro x hx
    obtain ⟨p, hp, rfl⟩ := List.mem_map.mp hx
    exact hs p hp

/-- C6 witness: the theorem applied to the collated sample batch with
concrete stand-ins for the external calls. -/
theorem validation_rouge_is_batch_mean_witness :
    Summarizer.validation_step wModel wGen wDecode wScore 1
        (SummarizationDataset.collate_fn sampleBatch) =
      Except.ok
        { vloss := 0
          rouge1 := ((((SummarizationDataset.collate_fn sampleBatch).2.map wDecode).zip
              (wGenerated.map wDecode)).map (fun p => (wScore p.1 p.2).rouge1)).sum /
              (wGenerated.length : ℚ)
          rouge2 := ((((SummarizationDataset.collate_fn sampleBatch).2.map wDecode).zip
              (wGenerated.map wDecode)).map (fun p => (wScore p.1 p.2).rouge2)).sum /
              (wGenerated.length : ℚ)
          rougeL := ((((SummarizationDataset.collate_fn sampleBatch).2.map wDecode).zip
              (wGenerated.map wDecode)).map (fun p => (wScore p.1 p.2).rougeL)).sum /
              (wGenerated.length : ℚ) } ∧
    (∀ s : ℚ, (∀ p ∈ ((SummarizationDataset.collate_fn sampleBatch).2.map wDecode).zip
          (wGenerated.map wDecode), (wScore p.1 p.2).rouge1 = s) →
        ((((SummarizationDataset.collate_fn sampleBatch).2.map wDecode).zip
            (wGenerated.map wDecode)).map (fun p => (wScore p.1 p.2).rouge1)).sum /
          (wGenerated.length : ℚ) = s) ∧
    (∀ s : ℚ, (∀ p ∈ ((SummarizationDataset.collate_fn sampleBatch).2.map wDecode).zip
          (wGenerated.map wDecode), (wScore p.1 p.2).rouge2 = s) →
        ((((SummarizationDataset.collate_fn sampleBatch).2.map wDecode).zip
            (wGenerated.map wDecode)).map (fun p => (wScore p.1 p.2).rouge2)).sum /
          (wGenerated.length : ℚ) = s) ∧
    (∀ s : ℚ, (∀ p ∈ ((SummarizationDataset.collate_fn sampleBatch).2.map wDecode).zip
          (wGenerated.map wDecode), (wScore p.1 p.2).rougeL = s) →
        ((((SummarizationDataset.collate_fn sampleBatch).2.map wDecode).zip
            (wGenerated.map wDecode)).map (fun p => (wScore p.1 p.2).rougeL)).sum /
          (wGenerated.length : ℚ) = s) :=
  validation_rouge_is_batch_mean wModel wGen wDecode wScore 1
    (SummarizationDataset.collate_fn sampleBatch) 0 wGenerated rfl rfl
    (by decide) (by decide)

/-- C8: `validation_step` divides the summed per-example scores by the
number of generated summaries with no guard: with one summary per input
row, a non-empty batch cannot reach the division-by-zero branch and the
step succeeds, while an empty batch fails with a `ZeroDivisionError`. -/
theorem validation_step_division_by_zero (model : ModelArgs → Except PyError ℚ)
    (generate : List (List Int) → List (List Int) → Except PyError (List (List Int)))
    (decode : List Int → String) (score : String → String → RougeScore)
    (padId : Int) (batch : List (List Int) × List (List Int)) (vloss : ℚ)
    (gen : List (List Int))
    (hm : model (forwardArgs padId batch.1 batch.2) = Except.ok vloss)
    (hg : generate batch.1 (attentionMask padId batch.1) = Except.ok gen)
    (hlen : gen.length = batch.1.length) :
    (batch.1 ≠ [] →
      Summarizer.validation_step model generate decode score padId batch =
        Except.ok
          { vloss := vloss
            rouge1 := (((batch.2.map decode).zip (gen.map decode)).map
                (fun p => (score p.1 p.2).rouge1)).sum / (gen.length : ℚ)
            rouge2 := (((batch.2.map decode).zip (gen.map decode)).map
                (fun p => (score p.1 p.2).rouge2)).sum / (gen.length : ℚ)
            rougeL := (((batch.2.map decode).zip (gen.map decode)).map
                (fun p => (score p.1 p.2).rougeL)).sum / (gen.length : ℚ) }) ∧
    (batch.1 = [] →
      Summarizer.validation_step model generate decode score padId batch =
        Except.error PyError.zeroDivisionError) := by
  constructor
  · intro hne
    have hne' : gen ≠ [] := by
      intro h
      apply hne
      rw [← List.length_eq_zero, ← hlen, h]
      rfl
    have hlz : ¬((gen.map decode).length = 0) := by
      simpa [List.length_eq_zero] using hne'
    simp [Summarizer.validation_step, Summarizer.forward, hm, hg, hlz, hne']
  · intro hnil
    have hz : (gen.map decode).length = 0 := by
      rw [List.length_map, hlen, hnil]
      rfl
    simp [Summarizer.validation_step, Summarizer.forward, hm, hg, hz,
      List.length_eq_zero.mp (by rw [hlen, hnil]; rfl : gen.length = 0)]

/-- C8 witness: the theorem applied to the collated sample batch (which is
non-empty, so the guarded branch applies vacuously). -/
theorem validation_step_division_by_zero_witness :
    ((SummarizationDataset.collate_fn sampleBatch).1 ≠ [] →
      Summarizer.validation_step wModel wGen wDecode wScore 1
          (SummarizationDataset.collate_fn sampleBatch) =
        Except.ok
          { vloss := 0
            rouge1 := ((((SummarizationDataset.collate_fn sampleBatch).2.map wDecode).zip
                (wGenerated.map wDecode)).map (fun p => (wScore p.1 p.2).rouge1)).sum /
                (wGenerated.length : ℚ)
            rouge2 := ((((SummarizationDataset.collate_fn sampleBatch).2.map wDecode).zip
                (wGenerated.map wDecode)).map (fun p => (wScore p.1 p.2).rouge2)).sum /
                (wGenerated.length : ℚ)
            rougeL := ((((SummarizationDataset.collate_fn sampleBatch).2.map wDecode).zip
                (wGenerated.map wDecode)).map (fun p => (wScore p.1 p.2).rougeL)).sum /
                (wGenerated.length : ℚ) }) ∧
    ((SummarizationDataset.collate_fn sampleBatch).1 = [] →
      Summarizer.validation_step wModel wGen wDecode wScore 1
          (SummarizationDataset.collate_fn sampleBatch) =
        Except.error PyError.zeroDivisionError) :=
  validation_step_division_by_zero wModel wGen wDecode wScore 1
    (SummarizationDataset.collate_fn sampleBatch) 0 wGenerated rfl rfl (by decide)

/-- Reading an in-range position of a mapped list through `getD`. -/
theorem getD_map_getD {α β : Type _} (l : List α) (f : α → β) (i : Nat) (d : β) (d' : α)
    (h : i < l.length) : (l.map f).getD i d = f (l.getD i d') := by
  rw [List.getD_eq_getElem _ _ (by simpa using h), List.getD_eq_getElem _ _ h,
    List.getElem_map]

/-- C7: the collator pads with the constant 1 while `forward` masks against
the configured tokenizer's `pad_token_id`; collator-added padding is
excluded from the attention mask and from the loss for every batch exactly
when that `pad_token_id` is 1. -/
theorem collator_pad_excluded_iff_padId_one (padId : Int) :
    (∀ batch, inputPadMasked padId batch ∧ targetPadMaskedInLabels padId batch) ↔
      padId = 1 := by
  constructor
  · intro H
    have h0 := (H [([0], [0]), ([3, 3], [3, 3])]).1 0 1 (by decide) (by decide) (by decide)
    have hval : ((attentionMask padId
        (SummarizationDataset.collate_fn [([0], [0]), ([3, 3], [3, 3])]).1).getD 0 []).getD 1 1
        = (if (1 : Int) = padId then 0 else 1) := rfl
    rw [hval] at h0
    by_cases hp : (1 : Int) = padId
    · exact hp.symm
    · rw [if_neg hp] at h0
      exact absurd h0 one_ne_zero
  · rintro rfl batch
    obtain ⟨h1, h2⟩ := collate_fn_rows batch
    constructor
    · intro i j hi hlo hhi
      rw [h1] at hhi ⊢
      unfold attentionMask
      rw [List.map_map]
      rw [getD_map_getD _ _ i [] ([], []) hi] at hhi
      rw [getD_map_getD _ _ i [] ([], []) hi]
      simp only [Function.comp] at hhi ⊢
      rw [getD_map_getD _ _ j 1 0 hhi]
      rw [List.getD_eq_getElem _ _ hhi]
      rw [padRow_getElem_of_ge hlo hhi]
      simp
    · intro i j hi hlo hhi
      rw [h2] at hhi ⊢
      simp only [labelsOf] at hhi ⊢
      rw [List.map_map] at hhi ⊢
      rw [getD_map_getD _ _ i [] ([], []) hi] at hhi
      rw [getD_map_getD _ _ i [] ([], []) hi]
      simp only [Function.comp, maskedLabelsRow] at hhi ⊢
      rw [List.length_map] at hhi
      rw [getD_map_getD _ _ j 0 0 hhi]
      rw [List.getD_eq_getElem _ _ hhi]
      rw [List.getElem_drop]
      have hlen : j + 1 < (padRow 1 (batchMaxLen (batch.map Prod.snd))
          (batch.getD i ([], [])).2).length := by
        have := hhi
        rw [List.length_drop] at this
        omega
      have hge : (batch.getD i ([], [])).2.length ≤ 1 + j := by omega
      rw [padRow_getElem_of_ge hge (by omega)]
      simp

end Summarization
